import Mathlib

/-!
Shallow embedding of the BulletBot lazy-loading document wrapper
(class DocWrapper in database/wrappers/docWrapper.ts and its older
variant, plus the enableSync / disableSync synchronizer management).

Field names are strings, field values are integers, and a document is a
partial map from field names to values (a JS object whose absent
properties read as undefined).  The mongoDB store visible to one wrapper
is reduced to the single record its uniqueQuery matches, or none.
Storage traffic is made explicit: every operation returns the list of
storage calls it issued, so caching claims are statements about that
list being empty.

JS conventions mirrored here:
  - undefined                  becomes Option.none
  - the fully-loaded sentinel (loadedFields = undefined) is none
  - an empty array is truthy in JS, so only none triggers defaults
-/

namespace BulletBot

/-- Field names of a document (keys of the Data type parameter). -/
abbrev Field := String

/-- Field values; the concrete value type is irrelevant to the claims. -/
abbrev Value := Int

/-- A (partial) document: JS object whose absent fields read undefined. -/
abbrev Record := Field → Option Value

/-- One storage call issued by the wrapper against its uniqueQuery:
a findOne with an optional projection (getDoc) or a deleteOne. -/
inductive StorageOp where
  | findOne (projection : Option (List Field))
  | deleteOne
deriving DecidableEq, Repr

/-- lodash _.difference(xs, ys): elements of xs not contained in ys,
order and duplicates of xs preserved. -/
def lodashDifference (xs ys : List Field) : List Field :=
  xs.filter (fun x => !(ys.contains x))

/-- Mutable per-wrapper state: allFields (fixed complete field list),
loadedFields (none is the fully-loaded sentinel, mirroring the JS
undefined), the data snapshot held in the ObservableValue, and the
removed flag. -/
structure State where
  allFields : List Field
  loadedFields : Option (List Field)
  snapshot : Field → Option Value
  removed : Bool

/-- Lookup in an association-list representation of a partial object. -/
def assocLookup (pobj : List (Field × Value)) (f : Field) : Option Value :=
  (pobj.find? (fun p => p.1 == f)).map Prod.snd

/-- DocWrapper constructor: loadedFields := Object.keys(obj),
removed := false.  The snapshot initialization is
Modelled from the spec: the DataWrapper base class (dataWrapper.ts, not
in src/) initializes the ObservableValue with the initial partial
object. -/
def mkWrapper (allFields : List Field) (pobj : List (Field × Value)) : State :=
  { allFields := allFields
    loadedFields := some (pobj.map Prod.fst)
    snapshot := assocLookup pobj
    removed := false }

/-- DocWrapper.isLoaded(field?): if (!this.loadedFields) return true;
if (!field) return false; return this.loadedFields.includes(field). -/
def isLoaded (s : State) (field : Option Field) : Bool :=
  match s.loadedFields with
  | none => true
  | some lf =>
    match field with
    | none => false
    | some f => lf.contains f

/-- DocWrapper.updateLoadedFields(fields?): returns which fields were
not loaded before and mutates loadedFields.  The collapse test is kept
exactly as in the source:
if (!_.difference(this.loadedFields, this.allFields).length)
  this.loadedFields = undefined
(note the argument order of the difference). -/
def updateLoadedFields (s : State) (fields : Option (List Field)) : State × List Field :=
  match s.loadedFields with
  | none => (s, [])
  | some lf =>
    let fs := fields.getD s.allFields
    let newFields := lodashDifference fs lf
    let lf2 := lf ++ newFields
    let collapsed : Option (List Field) :=
      if lodashDifference lf2 s.allFields = [] then none else some lf2
    ({ s with loadedFields := collapsed }, newFields)

/-- Membership of a key in loadedFields; with the sentinel set the JS
this.loadedFields.includes(key) would throw, but every call site in
DocWrapper reaching it passes overwrite = true, making it dead there. -/
def loadedContains (s : State) (key : Field) : Bool :=
  match s.loadedFields with
  | none => false
  | some lf => lf.contains key

/-- DocWrapper.mergeData(obj, fieldsToMerge, overwrite): clones the
snapshot and, for each key of fieldsToMerge not skipped by the
non-overwrite check, sets tempData[key] = obj[key]; then publishes the
result via this.data.next. -/
def mergeData (s : State) (obj : Record) (fieldsToMerge : List Field) (overwrite : Bool) : State :=
  { s with snapshot := fun key =>
      if fieldsToMerge.contains key && (overwrite || !(loadedContains s key)) then obj key
      else s.snapshot key }

/-- DocWrapper.loadFromObject(obj): this.data.next(obj);
this.loadedFields = undefined. -/
def loadFromObject (s : State) (obj : Record) : State :=
  { s with snapshot := obj, loadedFields := none }

/-- LoadOptions: a field list, a single field, or AdvancedLoadOptions
with optional fields and a reload flag. -/
inductive LoadOptions where
  | fieldList (fs : List Field)
  | singleField (f : Field)
  | advanced (fields : Option (List Field)) (reload : Bool)

/-- DocWrapper.extractFieldsToLoad(options): undefined for no options,
the array itself, [options] for a single field, [].concat(options.fields)
when the advanced fields property is set (an empty array is truthy and
is returned as is), else undefined. -/
def extractFieldsToLoad : Option LoadOptions → Option (List Field)
  | none => none
  | some (.fieldList fs) => some fs
  | some (.singleField f) => some [f]
  | some (.advanced fields _) => fields

/-- DocWrapper.extractIfReload(options): true only when the advanced
options carry a truthy reload flag. -/
def extractIfReload : Option LoadOptions → Bool
  | none => false
  | some (.advanced _ reload) => reload
  | some _ => false

/-- Outcome of DocWrapper.load: the new wrapper state, the JS return
value (none for undefined, some for an array), and the storage calls
issued during the call. -/
structure LoadOut where
  state : State
  result : Option (List Field)
  ops : List StorageOp

/-- DocWrapper.load(options?): extracts fields and reload, calls
updateLoadedFields (mutating loadedFields before any fetch), returns []
early when nothing new is requested and reload is off, otherwise issues
one getDoc (findOne with the loadFields projection); not-found returns
undefined, found merges with overwrite and returns loadFields (which is
the raw fields value, possibly undefined, when reload is set). -/
def load (store : Option Record) (s : State) (options : Option LoadOptions) : LoadOut :=
  let fields := extractFieldsToLoad options
  let reload := extractIfReload options
  let su := updateLoadedFields s fields
  if su.2.isEmpty && !reload then ⟨su.1, some [], []⟩
  else
    let loadFields := if reload then fields else some su.2
    match store with
    | none => ⟨su.1, none, [.findOne loadFields]⟩
    | some doc =>
      ⟨mergeData su.1 doc (loadFields.getD su.1.allFields) true, loadFields, [.findOne loadFields]⟩

/-- JS expression fields || this.loadedFields inside resync: any array
(the empty one included) is truthy, only undefined falls through. -/
def effectiveResyncFields (s : State) (fields : Option (List Field)) : Option (List Field) :=
  match fields with
  | some l => some l
  | none => s.loadedFields

/-- DocWrapper.resync(fields?): awaits
load( \x7b fields: fields || this.loadedFields, reload: true \x7d ) and
returns this when the result is truthy (any array, including the empty
one) and undefined otherwise; the Bool component is true exactly when
the wrapper itself is returned. -/
def resync (store : Option Record) (s : State) (fields : Option (List Field)) : State × Bool × List StorageOp :=
  let out := load store s (some (.advanced (effectiveResyncFields s fields) true))
  (out.state, out.result.isSome, out.ops)

/-- Getter installed per field (DocWrapper.dataGetterGenerator and the
older setProperty): when the field is not loaded it logs a warning and
returns undefined, otherwise it reads the snapshot.  The Bool component
records whether the warning was emitted; the getter never throws. -/
def dataGetter (s : State) (key : Field) : Bool × Option Value :=
  if !(isLoaded s (some key)) then (true, none)
  else (false, s.snapshot key)

/-- DocWrapper.remove(): this.removed = true, then
return this.model.deleteOne(this.uniqueQuery).exec().  The eventual
outcome of the asynchronous delete is passed in as a parameter and
handed back unchanged, so the state change is independent of it. -/
def remove (s : State) (deleteResult : Except String Unit) : State × List StorageOp × Except String Unit :=
  ({ s with removed := true }, [StorageOp.deleteOne], deleteResult)

/-- Error message thrown by the setter that setCustomProperty installs
on every wrapped field. -/
def setterErrorMessage (key : Field) : String :=
  "Attempted to set property \"" ++ key ++ "\". Wrapper properties cannot be changed directly. Use provided functions for that."

/-- Setter installed by setCustomProperty: it throws unconditionally
and performs no mutation before throwing. -/
def propertySet (_s : State) (key : Field) (_v : Value) : Except String State :=
  Except.error (setterErrorMessage key)

/-- Observable state after a direct assignment attempt: the thrown
error leaves the wrapper exactly as it was. -/
def propertySetRun (s : State) (key : Field) (v : Value) : State :=
  match propertySet s key v with
  | .ok s2 => s2
  | .error _ => s

/-- Modelled from the spec: a WrapperSynchronizer
(wrapperSynchronizer.ts, not in src/) carries the field subset it keeps
live; the id gives each created instance its identity.  Its constructor
only allocates the instance and its watch resource; releasing the
resource happens in close(). -/
structure Synchronizer where
  id : Nat
  syncedFields : Option (List Field)
deriving DecidableEq, Repr

/-- Synchronizer bookkeeping of a wrapper: the current synchronizer (at
most one is referenced), a counter giving fresh instance ids, and the
ids of instances whose close() has run (their resources released). -/
structure SyncState where
  synchronizer : Option Synchronizer
  nextId : Nat
  closedIds : List Nat
deriving DecidableEq, Repr

/-- JS string comparison on one character: by code point. -/
def charLtB (a b : Char) : Bool := a.val < b.val

/-- JS string comparison, lexicographic over the character lists. -/
def strLtB : List Char → List Char → Bool
  | [], [] => false
  | [], _ :: _ => true
  | _ :: _, [] => false
  | x :: xs, y :: ys =>
    if charLtB x y then true
    else if charLtB y x then false
    else strLtB xs ys

/-- Stable insertion of a field into a sorted list. -/
def insertSorted (x : Field) : List Field → List Field
  | [] => [x]
  | y :: ys => if strLtB y.data x.data then y :: insertSorted x ys else x :: y :: ys

/-- Ascending stable sort of a field list. -/
def sortFields : List Field → List Field
  | [] => []
  | x :: xs => insertSorted x (sortFields xs)

/-- lodash _.sortBy(v) as used in enableSync: sorts the array
ascending; _.sortBy(undefined) is the empty array. -/
def lodashSortBy (fields : Option (List Field)) : List Field :=
  sortFields (fields.getD [])

/-- this.synchronizer?.syncedFields: undefined when there is no
synchronizer or when its syncedFields is undefined. -/
def currentSyncedFields (st : SyncState) : Option (List Field) :=
  st.synchronizer.bind Synchronizer.syncedFields

/-- DocWrapper.enableSync(fields?): when the sorted current synced
fields differ from the sorted requested fields, a new
WrapperSynchronizer replaces the old reference (no close call occurs
here); this.synchronizer is returned either way. -/
def enableSync (st : SyncState) (fields : Option (List Field)) : SyncState × Option Synchronizer :=
  if lodashSortBy (currentSyncedFields st) = lodashSortBy fields then
    (st, st.synchronizer)
  else
    let sync : Synchronizer := ⟨st.nextId, fields⟩
    ({ st with synchronizer := some sync, nextId := st.nextId + 1 }, some sync)

/-- Modelled from the spec: WrapperSynchronizer.close() releases the
watch resources of the instance; recorded here by marking its id
closed. -/
def closeSynchronizer (st : SyncState) (sync : Synchronizer) : SyncState :=
  { st with closedIds := sync.id :: st.closedIds }

/-- DocWrapper.disableSync(): returns at once without a synchronizer,
otherwise closes it and deletes the reference. -/
def disableSync (st : SyncState) : SyncState :=
  match st.synchronizer with
  | none => st
  | some sync => { closeSynchronizer st sync with synchronizer := none }

/-- Claim C1: on the code as written this fails.  Starting from a
wrapper over allFields = [a, b] with nothing loaded, updating the
loaded bookkeeping with the single field a collapses loadedFields to
the fully-loaded sentinel even though b was never loaded, and a
no-argument isLoaded then reports true.  The collapse test compares
lodashDifference loadedFields allFields with the empty list, which
holds for every subset of allFields, instead of demanding that every
field of allFields be loaded. -/
theorem updateLoadedFields_collapses_on_partial_load :
    (updateLoadedFields (mkWrapper ["a", "b"] []) (some ["a"])).2 = ["a"] ∧
    (updateLoadedFields (mkWrapper ["a", "b"] []) (some ["a"])).1.loadedFields = none ∧
    isLoaded ((updateLoadedFields (mkWrapper ["a", "b"] []) (some ["a"])).1) none = true ∧
    isLoaded (mkWrapper ["a", "b"] []) (some "b") = false := by
  decide

/-- Claim C2: on the code as written this fails.  A wrapper over
allFields = [a, b] with only a loaded, backed by an empty store, has
load() return undefined (not found) as claimed, but loadedFields is not
left unchanged: load calls updateLoadedFields before the fetch, so the
bookkeeping has already been extended (here all the way to the
fully-loaded sentinel), and the subsequent load() issues no storage
call at all instead of retrying. -/
theorem load_not_found_still_marks_loaded :
    (mkWrapper ["a", "b"] [("a", 1)]).loadedFields = some ["a"] ∧
    (load none (mkWrapper ["a", "b"] [("a", 1)]) none).result = none ∧
    (load none (mkWrapper ["a", "b"] [("a", 1)]) none).state.loadedFields = none ∧
    (load none (load none (mkWrapper ["a", "b"] [("a", 1)]) none).state none).ops = [] := by
  decide

/-- Claim C3: with reload off and every requested field (all of
allFields when no options are given) already loaded, load returns the
empty list and issues no storage call; and after a first no-option load
on a partially loaded wrapper (which does issue exactly one fetch), a
second no-option load issues zero storage calls. -/
theorem load_cached_skips_storage :
    (∀ (store : Option Record) (s : State) (opts : Option LoadOptions),
        extractIfReload opts = false →
        (∀ f ∈ (extractFieldsToLoad opts).getD s.allFields, isLoaded s (some f) = true) →
        (load store s opts).result = some [] ∧ (load store s opts).ops = []) ∧
    (∀ (store : Option Record) (s : State) (lf : List Field),
        s.loadedFields = some lf →
        (∀ f ∈ lf, f ∈ s.allFields) →
        (∃ f ∈ s.allFields, f ∉ lf) →
        (load store s none).ops.length = 1 ∧
        (load store (load store s none).state none).ops = []) := by
  constructor
  · intro store s opts hrel hall
    have hempty : (updateLoadedFields s (extractFieldsToLoad opts)).2 = [] := by
      cases hs : s.loadedFields with
      | none => simp [updateLoadedFields, hs]
      | some lf =>
        simp only [updateLoadedFields, hs]
        rw [lodashDifference, List.filter_eq_nil_iff]
        intro a ha
        have h1 := hall a ha
        simp only [isLoaded, hs] at h1
        simpa using List.mem_of_elem_eq_true h1
    have hcond : ((updateLoadedFields s (extractFieldsToLoad opts)).2.isEmpty
        && !(extractIfReload opts)) = true := by
      simp [hempty, hrel]
    constructor <;> simp [load, hcond]
  · intro store s lf hs hsub hex
    obtain ⟨f, hf, hnf⟩ := hex
    have hfmem : f ∈ lodashDifference s.allFields lf := by
      rw [lodashDifference]
      refine List.mem_filter.mpr ⟨hf, ?_⟩
      simpa using hnf
    have hne : lodashDifference s.allFields lf ≠ [] := List.ne_nil_of_mem hfmem
    have hisempty : (lodashDifference s.allFields lf).isEmpty = false := by
      simp [List.isEmpty_iff, hne]
    have hcollapse :
        lodashDifference (lf ++ lodashDifference s.allFields lf) s.allFields = [] := by
      rw [lodashDifference, List.filter_eq_nil_iff]
      intro a ha
      have hmem : a ∈ s.allFields := by
        rcases List.mem_append.mp ha with h | h
        · exact hsub a h
        · rw [lodashDifference] at h
          exact (List.mem_filter.mp h).1
      simpa using hmem
    have hupd : updateLoadedFields s none =
        ({ s with loadedFields := none }, lodashDifference s.allFields lf) := by
      simp [updateLoadedFields, hs, hcollapse]
    have hops1 : (load store s none).ops.length = 1 := by
      cases store <;> simp [load, extractFieldsToLoad, extractIfReload, hupd, hisempty]
    have hstate1 : (load store s none).state.loadedFields = none := by
      cases store <;>
        simp [load, extractFieldsToLoad, extractIfReload, hupd, hisempty, mergeData]
    refine ⟨hops1, ?_⟩
    generalize hgen : (load store s none).state = s1
    rw [hgen] at hstate1
    have h2 : updateLoadedFields s1 none = (s1, []) := by
      simp [updateLoadedFields, hstate1]
    simp [load, extractFieldsToLoad, extractIfReload, h2]

/-- Claim C3, instantiated: a wrapper with its single field already
loaded answers load() from cache with no storage call, and on a fresh
wrapper the first load() issues one fetch while the immediately
following load() issues none. -/
theorem load_cached_skips_storage_witness :
    ((load none (mkWrapper ["a"] [("a", 1)]) none).result = some [] ∧
      (load none (mkWrapper ["a"] [("a", 1)]) none).ops = []) ∧
    ((load (some (fun _ => some 5)) (mkWrapper ["a"] []) none).ops.length = 1 ∧
      (load (some (fun _ => some 5))
        ((load (some (fun _ => some 5)) (mkWrapper ["a"] []) none).state) none).ops = []) :=
  ⟨load_cached_skips_storage.1 none (mkWrapper ["a"] [("a", 1)]) none (by decide) (by decide),
    load_cached_skips_storage.2 (some (fun _ => some 5)) (mkWrapper ["a"] []) []
      (by decide) (by decide) (by decide)⟩

/-- Claim C4: load with reload set on an already loaded field issues
one fetch no matter what, and when a record is found the freshly
fetched value overwrites the prior snapshot value of that field. -/
theorem load_reload_fetches_and_overwrites :
    ∀ (s : State) (f : Field) (store : Option Record),
      isLoaded s (some f) = true →
      (load store s (some (.advanced (some [f]) true))).ops =
          [StorageOp.findOne (some [f])] ∧
      ∀ doc : Record, store = some doc →
        (load store s (some (.advanced (some [f]) true))).state.snapshot f = doc f := by
  intro s f store hld
  constructor
  · cases store <;> simp [load, extractFieldsToLoad, extractIfReload]
  · intro doc hdoc
    subst hdoc
    simp [load, extractFieldsToLoad, extractIfReload, mergeData]

/-- Claim C4, instantiated: the field a holds 7, the store holds 9;
a reload fetches once and the snapshot afterwards holds 9. -/
theorem load_reload_fetches_and_overwrites_witness :
    (load (some (fun _ => some 9)) (mkWrapper ["a"] [("a", 7)])
        (some (.advanced (some ["a"]) true))).ops = [StorageOp.findOne (some ["a"])] ∧
    (load (some (fun _ => some 9)) (mkWrapper ["a"] [("a", 7)])
        (some (.advanced (some ["a"]) true))).state.snapshot "a" = some 9 :=
  ⟨(load_reload_fetches_and_overwrites (mkWrapper ["a"] [("a", 7)]) "a"
      (some (fun _ => some 9)) (by decide)).1,
    (load_reload_fetches_and_overwrites (mkWrapper ["a"] [("a", 7)]) "a"
      (some (fun _ => some 9)) (by decide)).2 (fun _ => some 9) rfl⟩

/-- Claim C5: after loadFromObject the wrapper is fully loaded and
every field of the snapshot equals the corresponding field of the
provided object, previously loaded values included. -/
theorem loadFromObject_fully_loads_and_copies :
    ∀ (s : State) (obj : Record) (f : Field),
      (loadFromObject s obj).snapshot f = obj f ∧
      isLoaded (loadFromObject s obj) none = true :=
  fun _ _ _ => ⟨rfl, rfl⟩

/-- Claim C6: on the code as written the replacement half fails.
Re-enabling sync with the same field list returns the same synchronizer
instance and creates nothing, but enabling with a different field list
installs a fresh synchronizer while the closed-instance record stays
empty: the old synchronizer (id 0) is never closed by enableSync. -/
theorem enableSync_replacement_leaves_old_unclosed :
    (enableSync ⟨none, 0, []⟩ (some ["age"])).1 = ⟨some ⟨0, some ["age"]⟩, 1, []⟩ ∧
    (enableSync ⟨some ⟨0, some ["age"]⟩, 1, []⟩ (some ["age"])).2 =
        some ⟨0, some ["age"]⟩ ∧
    (enableSync ⟨some ⟨0, some ["age"]⟩, 1, []⟩ (some ["age"])).1 =
        ⟨some ⟨0, some ["age"]⟩, 1, []⟩ ∧
    (enableSync ⟨some ⟨0, some ["age"]⟩, 1, []⟩ (some ["age", "role"])).1 =
        ⟨some ⟨1, some ["age", "role"]⟩, 2, []⟩ := by
  decide

/-- Claim C6 as amended: enableSync with a field list whose sorted form
matches the sorted synced fields of the current synchronizer returns
the existing instance unchanged and creates no new one; with a
different field list it installs the freshly created synchronizer and
leaves the record of closed instances untouched (the old synchronizer
is not closed by the replacement); only disableSync closes the current
synchronizer and drops the reference. -/
theorem enableSync_replace_semantics :
    ∀ (st : SyncState) (fields : Option (List Field)),
      (lodashSortBy (currentSyncedFields st) = lodashSortBy fields →
          enableSync st fields = (st, st.synchronizer)) ∧
      (lodashSortBy (currentSyncedFields st) ≠ lodashSortBy fields →
          (enableSync st fields).1.synchronizer = some ⟨st.nextId, fields⟩ ∧
          (enableSync st fields).2 = some ⟨st.nextId, fields⟩ ∧
          (enableSync st fields).1.closedIds = st.closedIds) ∧
      (∀ sync, st.synchronizer = some sync →
          (disableSync st).closedIds = sync.id :: st.closedIds ∧
          (disableSync st).synchronizer = none) := by
  intro st fields
  refine ⟨?_, ?_, ?_⟩
  · intro h
    simp [enableSync, h]
  · intro h
    simp [enableSync, h]
  · intro sync h
    simp [disableSync, closeSynchronizer, h]

/-- Claim C6 as amended, instantiated: same sorted field list keeps the
instance, a different one replaces without closing, and disableSync
does close. -/
theorem enableSync_replace_semantics_witness :
    enableSync ⟨some ⟨0, some ["age"]⟩, 1, []⟩ (some ["age"]) =
        (⟨some ⟨0, some ["age"]⟩, 1, []⟩, some ⟨0, some ["age"]⟩) ∧
    (enableSync ⟨some ⟨0, some ["age"]⟩, 1, []⟩ (some ["age", "role"])).1.closedIds = [] ∧
    (disableSync ⟨some ⟨0, some ["age"]⟩, 1, []⟩).closedIds = [0] := by
  refine ⟨?_, ?_, ?_⟩
  · exact (enableSync_replace_semantics ⟨some ⟨0, some ["age"]⟩, 1, []⟩ (some ["age"])).1
      (by decide)
  · exact ((enableSync_replace_semantics ⟨some ⟨0, some ["age"]⟩, 1, []⟩
      (some ["age", "role"])).2.1 (by decide)).2.2
  · exact ((enableSync_replace_semantics ⟨some ⟨0, some ["age"]⟩, 1, []⟩ none).2.2
      ⟨0, some ["age"]⟩ rfl).1

/-- Claim C7: on the code as written this fails.  A fully loaded
wrapper (loadedFields is the sentinel) whose backing record exists in
the store still gets undefined back from a no-argument resync, because
load returns its loadFields value, which is undefined on a full
reload. -/
theorem resync_found_record_returns_undefined :
    (resync (some (fun _ => some 5))
        (loadFromObject (mkWrapper ["a"] []) (fun _ => some 5)) none).2.1 = false ∧
    (resync (some (fun _ => some 5))
        (loadFromObject (mkWrapper ["a"] []) (fun _ => some 5)) none).2.2.length = 1 := by
  decide

/-- Claim C7 as amended: when the effective field argument
(fields, falling back to loadedFields) is an array, resync returns the
wrapper exactly when the record was found; when it is undefined (no
argument on a fully loaded wrapper) resync returns undefined even if
the record was found. -/
theorem resync_return_value_semantics :
    ∀ (store : Option Record) (s : State) (fields : Option (List Field)),
      (∀ l, effectiveResyncFields s fields = some l →
          (resync store s fields).2.1 = store.isSome) ∧
      (effectiveResyncFields s fields = none → (resync store s fields).2.1 = false) := by
  intro store s fields
  constructor
  · intro l hl
    cases store <;> simp [resync, load, extractFieldsToLoad, extractIfReload, hl]
  · intro h0
    cases store <;> simp [resync, load, extractFieldsToLoad, extractIfReload, h0]

/-- Claim C7 as amended, instantiated: a partially loaded wrapper gets
itself back when the record is found, and a fully loaded wrapper with
no field argument gets undefined even though the store is empty or
full alike. -/
theorem resync_return_value_semantics_witness :
    (resync (some (fun _ => some 5)) (mkWrapper ["a", "b"] [("a", 1)]) none).2.1 = true ∧
    (resync none (loadFromObject (mkWrapper ["a"] []) (fun _ => some 5)) none).2.1 = false := by
  constructor
  · have h := (resync_return_value_semantics (some (fun _ => some 5))
      (mkWrapper ["a", "b"] [("a", 1)]) none).1 ["a"] (by decide)
    simpa using h
  · exact (resync_return_value_semantics none
      (loadFromObject (mkWrapper ["a"] []) (fun _ => some 5)) none).2 (by decide)

/-- Claim C8: remove sets the removed flag in a way that does not
depend on the delete outcome (it is observable whatever the
asynchronous result turns out to be, success or error), issues exactly
one deleteOne against the uniqueQuery, and hands the delete outcome
back to the caller unchanged. -/
theorem remove_sets_flag_and_issues_one_delete :
    ∀ (s : State) (r : Except String Unit),
      (remove s r).1.removed = true ∧
      (remove s r).2.1 = [StorageOp.deleteOne] ∧
      (remove s r).2.2 = r :=
  fun _ _ => ⟨rfl, rfl, rfl⟩

/-- Claim C9: reading a field outside loadedFields while the
fully-loaded sentinel is not set emits the diagnostic warning and
yields undefined, never the underlying snapshot value; the getter is a
total function, so no exception is raised. -/
theorem unloaded_access_warns_and_yields_sentinel :
    ∀ (s : State) (key : Field) (lf : List Field),
      s.loadedFields = some lf →
      lf.contains key = false →
      dataGetter s key = (true, none) := by
  intro s key lf h1 h2
  have h3 : key ∉ lf := by simpa using h2
  simp [dataGetter, isLoaded, h1, h3]

/-- Claim C9, instantiated: the field b of a wrapper that only loaded a
reads as a warning plus undefined. -/
theorem unloaded_access_warns_and_yields_sentinel_witness :
    dataGetter (mkWrapper ["a", "b"] [("a", 1)]) "b" = (true, none) :=
  unloaded_access_warns_and_yields_sentinel (mkWrapper ["a", "b"] [("a", 1)]) "b" ["a"]
    (by decide) (by decide)

/-- Claim C10: a direct assignment through a wrapped field always hits
the installed setter, which throws, and the observable wrapper state
after the throw is exactly the state before it. -/
theorem direct_assignment_always_throws :
    ∀ (s : State) (key : Field) (v : Value),
      key ∈ s.allFields →
      propertySet s key v = Except.error (setterErrorMessage key) ∧
      propertySetRun s key v = s :=
  fun _ _ _ _ => ⟨rfl, rfl⟩

/-- Claim C10, instantiated: assigning 3 to the wrapped field a throws
and changes nothing. -/
theorem direct_assignment_always_throws_witness :
    propertySet (mkWrapper ["a"] []) "a" 3 =
        Except.error (setterErrorMessage "a") ∧
    propertySetRun (mkWrapper ["a"] []) "a" 3 = mkWrapper ["a"] [] :=
  direct_assignment_always_throws (mkWrapper ["a"] []) "a" 3 (by decide)

end BulletBot
